import Mathlib

/-!
Verification development for the ResolveNow complaint-management backend
(single source file `Backend/Schema.js`: Mongoose schemas plus Express
route handlers). The document store is modelled as explicit lists of
records; each route handler of interest is translated into a pure Lean
function returning its HTTP-level outcome, the socket events it emits,
and the post-state of the store. Mongo ObjectIds are modelled as `Nat`;
JS numbers reaching the Feedback rating validator are modelled as `Rat`
(Mongoose `type: Number` admits non-integers); JS `Date.now()` values
are passed in as an explicit `now : Nat` parameter.
-/

namespace ResolveNow

/-- An attachment subdocument (shared shape of `ComplaintSchema.attachments`
and `MessageSchema.attachments`). -/
structure Attachment where
  path : String
  name : String
  originalName : String
deriving Repr, DecidableEq

/-- `UserSchema`: name, unique email, hashed password, phone, userType with
default "Customer". The Mongo `_id` is modelled as `id : Nat`. -/
structure User where
  id : Nat
  name : String
  email : String
  password : String
  phone : String
  userType : String
  createdAt : Nat
deriving Repr, DecidableEq

/-- `ComplaintSchema`: submitting user reference, address fields, comment,
attachments, status with default "Pending". -/
structure Complaint where
  id : Nat
  userId : Nat
  name : String
  address : String
  city : String
  state : String
  pincode : String
  comment : String
  attachments : List Attachment
  status : String
  createdAt : Nat
deriving Repr, DecidableEq

/-- `AssignedSchema`: agent reference, complaint reference (declared
`unique: true`), denormalized agent name, status with default "Assigned". -/
structure Assigned where
  agentId : Nat
  complaintId : Nat
  agentName : String
  status : String
  assignedAt : Nat
deriving Repr, DecidableEq

/-- `MessageSchema`: complaint reference, sender display name, body,
attachments, read flag with default false, sent timestamp. -/
structure Message where
  complaintId : Nat
  name : String
  message : String
  attachments : List Attachment
  read : Bool
  sentAt : Nat
deriving Repr, DecidableEq

/-- `FeedbackSchema`: user reference, complaint reference, optional agent
reference, rating (`type: Number, min: 1, max: 5`), optional comment. -/
structure Feedback where
  userId : Nat
  complaintId : Nat
  agentId : Option Nat
  rating : Rat
  comment : Option String
  createdAt : Nat
deriving Repr, DecidableEq

/-- The document store: one list per Mongoose model. -/
structure DB where
  users : List User
  complaints : List Complaint
  assignments : List Assigned
  messages : List Message
  feedbacks : List Feedback
deriving Repr, DecidableEq

/-- The store with no documents. -/
def DB.empty : DB := ⟨[], [], [], [], []⟩

/-- `Complaint.findById(cid)`. -/
def findComplaint (db : DB) (cid : Nat) : Option Complaint :=
  db.complaints.find? (fun c => c.id == cid)

/-- `Assigned.findOne({ complaintId: cid })`. -/
def findAssignment (db : DB) (cid : Nat) : Option Assigned :=
  db.assignments.find? (fun a => a.complaintId == cid)

/-- The per-assignment test `a.complaintId && a.complaintId.status !== 'Resolved'`
after `populate('complaintId')`: a deleted (missing) complaint populates as
null and fails the test. -/
def isActive (db : DB) (a : Assigned) : Bool :=
  match findComplaint db a.complaintId with
  | some c => c.status != "Resolved"
  | none => false

/-- `Assigned.find({ agentId: aid })`. -/
def agentAssignments (db : DB) (aid : Nat) : List Assigned :=
  db.assignments.filter (fun a => a.agentId == aid)

/-- `assignments.filter(a => a.complaintId && a.complaintId.status !== 'Resolved').length`,
the active-assignment count computed identically in `POST /api/assigned` and
`GET /api/auth/agents`. -/
def activeAgentCount (db : DB) (aid : Nat) : Nat :=
  ((agentAssignments db aid).filter (fun a => isActive db a)).length

/-- `GET /api/auth/agents`: each user with userType "Agent", paired with its
active-assignment count. -/
def listAgents (db : DB) : List (User × Nat) :=
  (db.users.filter (fun u => u.userType == "Agent")).map
    (fun u => (u, activeAgentCount db u.id))

/-- A persistence-layer error as surfaced by Mongoose (`err.code` is 11000
for a duplicate-key rejection; validation errors carry no numeric code,
modelled as code 0). -/
structure MongoError where
  code : Nat
  message : String
deriving Repr, DecidableEq

/-- `newAssignment.save()` under the `unique: true` constraint on
`Assigned.complaintId`: rejects with error code 11000 when some stored
assignment already references the same complaint, otherwise appends. -/
def saveAssigned (db : DB) (a : Assigned) : Except MongoError DB :=
  if db.assignments.any (fun b => b.complaintId == a.complaintId) then
    .error ⟨11000, "E11000 duplicate key error"⟩
  else
    .ok { db with assignments := db.assignments ++ [a] }

/-- `Complaint.findByIdAndUpdate(cid, { status: st })`: updates the matching
document in place; a no-op when no complaint has id `cid`. -/
def updateComplaintStatus (db : DB) (cid : Nat) (st : String) : DB :=
  { db with complaints :=
      db.complaints.map (fun c => if c.id == cid then { c with status := st } else c) }

/-- `Complaint.findByIdAndDelete(cid)`: removes the complaint document only;
assignments, messages and feedback referencing it are left in place. -/
def deleteComplaint (db : DB) (cid : Nat) : DB :=
  { db with complaints := db.complaints.filter (fun c => c.id != cid) }

/-- A socket.io broadcast event (`ioInstance.emit(...)`). The
`complaintUpdated` payload is the result of a `findById` re-read and so may
be null. -/
inductive Event where
  | complaintCreated (c : Complaint)
  | complaintUpdated (payload : Option Complaint)
  | complaintDeleted (id : Nat)
  | newMessage (m : Message)
deriving Repr, DecidableEq

/-- The HTTP-level outcome of a handler: 201 with a body, 400 with an error
message, or 500 with an error message. -/
inductive ApiResult (α : Type) where
  | created (body : α)
  | badRequest (error : String)
  | serverError (error : String)
deriving Repr, DecidableEq

/-- Error message of the duplicate-assignment rejection. -/
def dupAssignMsg : String := "Complaint is already assigned to an agent"

/-- Error message of the capacity rejection. -/
def capacityMsg : String := "Agent has reached maximum limit of 3 active assignments"

/-- Outcome of `POST /api/assigned`: response, emitted events, post-state. -/
structure AssignedOutcome where
  response : ApiResult Assigned
  events : List Event
  db : DB
deriving Repr, DecidableEq

/-- `POST /api/assigned` with the read phase and the write phase given
separate store snapshots, so that a concurrent insert between the advisory
`findOne` pre-check and the constrained `save()` can be expressed:
`checkDb` is the snapshot both pre-check reads run against, `writeDb` the
state the save applies to. The sequential call is the diagonal
`createAssigned`. Steps, in source order: duplicate pre-check; capacity
pre-check (`activeAgentCount >= 3`); constrained save (a code-11000
rejection is translated back to the duplicate-assignment message by the
catch block); `findByIdAndUpdate` of the complaint status to "Assigned";
re-read of the complaint; `emit('complaintUpdated', updatedComplaint)`;
201 with the saved assignment. -/
def createAssignedRace (checkDb writeDb : DB) (cid aid : Nat) (an : String)
    (now : Nat) : AssignedOutcome :=
  if (findAssignment checkDb cid).isSome then
    ⟨.badRequest dupAssignMsg, [], writeDb⟩
  else if 3 ≤ activeAgentCount checkDb aid then
    ⟨.badRequest capacityMsg, [], writeDb⟩
  else
    match saveAssigned writeDb ⟨aid, cid, an, "Assigned", now⟩ with
    | .error e =>
        if e.code == 11000 then ⟨.badRequest dupAssignMsg, [], writeDb⟩
        else ⟨.serverError e.message, [], writeDb⟩
    | .ok db1 =>
        let db2 := updateComplaintStatus db1 cid "Assigned"
        ⟨.created ⟨aid, cid, an, "Assigned", now⟩,
         [.complaintUpdated (findComplaint db2 cid)], db2⟩

/-- `POST /api/assigned` run without interference: the pre-checks and the
save see the same store. -/
def createAssigned (db : DB) (cid aid : Nat) (an : String) (now : Nat) :
    AssignedOutcome :=
  createAssignedRace db db cid aid an now

/-- A field value inside a signed JWT payload. -/
inductive JVal where
  | jstr (s : String)
  | jnum (n : Nat)
deriving Repr, DecidableEq

/-- A JWT payload as an association list of claim fields. -/
def Payload : Type := List (String × JVal)

/-- The payload both `POST /api/auth/register` and `POST /api/auth/login`
sign: `jwt.sign({ id: user._id, userType: user.userType }, ...)`. -/
def signPayload (uid : Nat) (userType : String) : Payload :=
  [("id", .jnum uid), ("userType", .jstr userType)]

/-- The token payload issued by `POST /api/auth/register` for the saved user. -/
def registerToken (u : User) : Payload := signPayload u.id u.userType

/-- The token payload issued by `POST /api/auth/login` for the matched user. -/
def loginToken (u : User) : Payload := signPayload u.id u.userType

/-- Property access on the decoded payload (`req.user` after `jwt.verify`):
`none` models JS `undefined` for an absent field. -/
def payloadField (p : Payload) (k : String) : Option JVal :=
  (p.find? (fun q => q.1 == k)).map (fun q => q.2)

/-- `req.user.name` as a string-or-undefined value. -/
def reqUserName (p : Payload) : Option String :=
  match payloadField p "name" with
  | some (.jstr s) => some s
  | _ => none

/-- The Mongo condition `name: { $ne: userName }` evaluated against a
message sender name. When `userName` is JS `undefined`, the serialized
condition compares against null, which every (required, non-null) sender
name satisfies. -/
def senderNe (userName : Option String) (sender : String) : Bool :=
  match userName with
  | none => true
  | some n => sender != n

/-- `PUT /api/messages/read/:complaintId`:
`Message.updateMany({ complaintId, name: { $ne: userName }, read: false },
{ $set: { read: true } })`. -/
def markMessagesRead (db : DB) (cid : Nat) (userName : Option String) : DB :=
  { db with messages :=
      db.messages.map (fun m =>
        if m.complaintId == cid && senderNe userName m.name && m.read == false
        then { m with read := true } else m) }

/-- The `PUT /api/messages/read/:complaintId` route as called through `auth`:
the caller name is read off the verified token payload. -/
def markReadRoute (db : DB) (cid : Nat) (tokenPayload : Payload) : DB :=
  markMessagesRead db cid (reqUserName tokenPayload)

/-- The `$match` stage of the unread-counts aggregation:
`{ name: { $ne: userName }, read: false }` over all messages. -/
def unreadMatches (db : DB) (userName : Option String) : List Message :=
  db.messages.filter (fun m => senderNe userName m.name && m.read == false)

/-- Adds one occurrence of `cid` to a running count table. -/
def bumpCount (counts : List (Nat × Nat)) (cid : Nat) : List (Nat × Nat) :=
  match counts with
  | [] => [(cid, 1)]
  | (k, v) :: rest =>
      if k == cid then (k, v + 1) :: rest else (k, v) :: bumpCount rest cid

/-- The `$group: { _id: '$complaintId', count: { $sum: 1 } }` stage: one
entry per complaint id occurring among the matched messages, with its
occurrence count. -/
def groupByComplaintId (ms : List Message) : List (Nat × Nat) :=
  List.foldl (fun acc m => bumpCount acc m.complaintId) [] ms

/-- `GET /api/messages/unread/counts`: the mapping from complaint id to
unread count built from the aggregation result. -/
def unreadCounts (db : DB) (userName : Option String) : List (Nat × Nat) :=
  groupByComplaintId (unreadMatches db userName)

/-- The `GET /api/messages/unread/counts` route as called through `auth`. -/
def unreadCountsRoute (db : DB) (tokenPayload : Payload) : List (Nat × Nat) :=
  unreadCounts db (reqUserName tokenPayload)

/-- Access on the returned counts object: the value at key `cid`, absent
when no group was produced for it. -/
def lookupCount (counts : List (Nat × Nat)) (cid : Nat) : Option Nat :=
  (counts.find? (fun p => p.1 == cid)).map (fun p => p.2)

/-- `newFeedback.save()` under the schema validators
`rating: { type: Number, required: true, min: 1, max: 5 }`: a rating below
1 or above 5 raises a ValidationError (no numeric `code`), otherwise the
document is appended. Integrality of the rating is not validated. -/
def saveFeedback (db : DB) (f : Feedback) : Except MongoError DB :=
  if f.rating < 1 ∨ 5 < f.rating then
    .error ⟨0, "Feedback validation failed: rating"⟩
  else
    .ok { db with feedbacks := db.feedbacks ++ [f] }

/-- `POST /api/feedback`: looks up the current assignment of the complaint
to denormalize `agentId` (null when unassigned), then saves the feedback;
a save rejection falls into the generic catch (500 with the message). -/
def createFeedback (db : DB) (userId cid : Nat) (rating : Rat)
    (comment : Option String) (now : Nat) : ApiResult Feedback × DB :=
  match saveFeedback db ⟨userId, cid, (findAssignment db cid).map
      (fun a => a.agentId), rating, comment, now⟩ with
  | .error e => (.serverError e.message, db)
  | .ok db1 =>
      (.created ⟨userId, cid, (findAssignment db cid).map (fun a => a.agentId),
        rating, comment, now⟩, db1)

/-! Helper lemmas shared by the claim theorems. -/

/-- Rewriting a `find?` under a pointwise-equal predicate. -/
theorem find?_congr_fun {α : Type} (l : List α) (p q : α → Bool)
    (h : ∀ a, p a = q a) : l.find? p = l.find? q := by
  rw [funext h]

/-- The status-update map step preserves complaint ids, so `find?` by id
commutes with it. -/
theorem findComplaint_updateComplaintStatus (db : DB) (cid : Nat) (st : String)
    (k : Nat) :
    findComplaint (updateComplaintStatus db cid st) k =
      (findComplaint db k).map
        (fun c => if c.id == cid then { c with status := st } else c) := by
  unfold findComplaint updateComplaintStatus
  rw [List.find?_map]
  congr 1
  apply find?_congr_fun
  intro c
  by_cases h : c.id == cid <;> simp [h, Function.comp]

/-- Reading back a complaint other than the updated one is unchanged. -/
theorem findComplaint_update_ne (db : DB) (cid : Nat) (st : String) (k : Nat)
    (hk : k ≠ cid) :
    findComplaint (updateComplaintStatus db cid st) k = findComplaint db k := by
  rw [findComplaint_updateComplaintStatus]
  cases hc : findComplaint db k with
  | none => rfl
  | some c =>
      have hck : c.id = k := by
        have := List.find?_some hc
        simpa using this
      simp [Option.map_some, hck, hk]

/-- Reading back the updated complaint returns it with the new status. -/
theorem findComplaint_update_self (db : DB) (cid : Nat) (st : String)
    (c : Complaint) (hc : findComplaint db cid = some c) :
    findComplaint (updateComplaintStatus db cid st) cid =
      some { c with status := st } := by
  rw [findComplaint_updateComplaintStatus, hc]
  have hck : c.id = cid := by
    have := List.find?_some hc
    simpa using this
  simp [hck]

/-- Updating a complaint id that no stored complaint has is a no-op. -/
theorem updateComplaintStatus_missing (db : DB) (cid : Nat) (st : String)
    (h : findComplaint db cid = none) :
    updateComplaintStatus db cid st = db := by
  unfold updateComplaintStatus
  have hall : ∀ c ∈ db.complaints, ¬(c.id == cid) = true := by
    intro c hc
    exact List.find?_eq_none.mp h c hc
  have hmap : db.complaints.map
      (fun c => if c.id == cid then { c with status := st } else c) =
      db.complaints.map id :=
    List.map_congr_left (fun c hc => by simp [hall c hc])
  rw [hmap, List.map_id]

/-- `isActive` only inspects the store through `findComplaint` at the
assignment's complaint id. -/
theorem isActive_congr (db1 db2 : DB) (a : Assigned)
    (h : findComplaint db1 a.complaintId = findComplaint db2 a.complaintId) :
    isActive db1 a = isActive db2 a := by
  unfold isActive
  rw [h]

/-- Shape of the success path of `POST /api/assigned`: with both pre-checks
passing, the assignment is appended, the complaint status is set to
"Assigned", and the re-read complaint is broadcast. -/
theorem createAssigned_success (db : DB) (cid aid : Nat) (an : String)
    (now : Nat) (hdup : findAssignment db cid = none)
    (hcap : activeAgentCount db aid < 3) :
    createAssigned db cid aid an now =
      ⟨.created ⟨aid, cid, an, "Assigned", now⟩,
       [.complaintUpdated (findComplaint
          (updateComplaintStatus
            { db with assignments :=
                db.assignments ++ [⟨aid, cid, an, "Assigned", now⟩] }
            cid "Assigned") cid)],
       updateComplaintStatus
         { db with assignments :=
             db.assignments ++ [⟨aid, cid, an, "Assigned", now⟩] }
         cid "Assigned"⟩ := by
  unfold createAssigned createAssignedRace
  have hnoany : db.assignments.any (fun b => b.complaintId == cid) = false := by
    rw [List.any_eq_false]
    intro b hb
    exact List.find?_eq_none.mp hdup b hb
  rw [hdup]
  simp only [Option.isSome_none, Bool.false_eq_true, if_false]
  rw [if_neg (by omega)]
  unfold saveAssigned
  simp only [hnoany, Bool.false_eq_true, if_false]

/-- Inversion of the success path: a 201 response implies both pre-checks
passed on the snapshot the handler read. -/
theorem createAssigned_created_inv (db : DB) (cid aid : Nat) (an : String)
    (now : Nat) (a : Assigned) (evs : List Event) (db' : DB)
    (h : createAssigned db cid aid an now = ⟨.created a, evs, db'⟩) :
    findAssignment db cid = none ∧ activeAgentCount db aid < 3 := by
  unfold createAssigned createAssignedRace at h
  by_cases hdup : (findAssignment db cid).isSome
  · rw [if_pos hdup] at h
    cases h
  · rw [if_neg hdup] at h
    constructor
    · exact Option.not_isSome_iff_eq_none.mp hdup
    · by_cases hcap : 3 ≤ activeAgentCount db aid
      · rw [if_pos hcap] at h
        cases h
      · omega

/-- After a successful save plus status update, the active count of the
assigned agent grows by at most one over its pre-state value. -/
theorem activeAgentCount_after_success (db : DB) (cid aid : Nat) (an : String)
    (now : Nat) (hdup : findAssignment db cid = none) :
    activeAgentCount
      (updateComplaintStatus
        { db with assignments :=
            db.assignments ++ [⟨aid, cid, an, "Assigned", now⟩] }
        cid "Assigned") aid ≤ activeAgentCount db aid + 1 := by
  set a : Assigned := ⟨aid, cid, an, "Assigned", now⟩ with ha
  set db1 : DB :=
    { db with assignments := db.assignments ++ [a] } with hdb1
  set db2 : DB := updateComplaintStatus db1 cid "Assigned" with hdb2
  have hassign : db2.assignments = db.assignments ++ [a] := rfl
  unfold activeAgentCount agentAssignments
  rw [hassign, List.filter_append, List.filter_append, List.length_append]
  have hold : (List.filter (fun b => isActive db2 b)
      (List.filter (fun b => b.agentId == aid) db.assignments)) =
      (List.filter (fun b => isActive db b)
        (List.filter (fun b => b.agentId == aid) db.assignments)) := by
    apply List.filter_congr
    intro b hb
    have hbmem : b ∈ db.assignments := List.mem_of_mem_filter hb
    have hbne : b.complaintId ≠ cid := by
      have := List.find?_eq_none.mp hdup b hbmem
      simpa using this
    apply isActive_congr
    rw [hdb2, findComplaint_update_ne db1 cid "Assigned" b.complaintId hbne]
    rfl
  have hnew : (List.filter (fun b => isActive db2 b)
      (List.filter (fun b => b.agentId == aid) [a])).length ≤ 1 := by
    calc (List.filter (fun b => isActive db2 b)
        (List.filter (fun b => b.agentId == aid) [a])).length
        ≤ (List.filter (fun b => b.agentId == aid) [a]).length :=
          List.length_filter_le _ _
      _ ≤ [a].length := List.length_filter_le _ _
      _ = 1 := rfl
  rw [hold]
  have : activeAgentCount db aid =
      (List.filter (fun b => isActive db b)
        (List.filter (fun b => b.agentId == aid) db.assignments)).length := rfl
  omega

/-! Concrete sample records used by the witness theorems. -/

/-- A concrete complaint record with the given id and status. -/
def sampleComplaint (id : Nat) (st : String) : Complaint :=
  ⟨id, 1, "u", "addr", "city", "state", "pin", "cmt", [], st, 0⟩

/-- A concrete assignment record pairing the given agent and complaint. -/
def sampleAssigned (aid cid : Nat) : Assigned :=
  ⟨aid, cid, "G", "Assigned", 0⟩

/-- A store holding complaint 1 already assigned to agent 7. -/
def dbDup : DB := ⟨[], [sampleComplaint 1 "Pending"], [sampleAssigned 7 1], [], []⟩

/-- A store where agent 7 already has three active assignments and
complaint 2 is unassigned. -/
def dbCap : DB :=
  ⟨[], [sampleComplaint 2 "Pending", sampleComplaint 10 "Pending",
        sampleComplaint 11 "Pending", sampleComplaint 12 "Pending"],
   [sampleAssigned 7 10, sampleAssigned 7 11, sampleAssigned 7 12], [], []⟩

/-- A store holding only unassigned complaint 2. -/
def dbFree : DB := ⟨[], [sampleComplaint 2 "Pending"], [], [], []⟩

/-! Claim theorems. -/

/-- C1: the create-assignment operation performs its precondition checks in
order: an existing assignment for the complaint yields the
duplicate-assignment error with nothing created; otherwise an active count
of at least 3 for the agent yields the capacity error with nothing created;
only when both checks pass is a new Assignment persisted. -/
theorem create_assignment_precondition_order (db : DB) (cid aid : Nat)
    (an : String) (now : Nat) :
    ((findAssignment db cid).isSome →
       createAssigned db cid aid an now = ⟨.badRequest dupAssignMsg, [], db⟩) ∧
    (findAssignment db cid = none → 3 ≤ activeAgentCount db aid →
       createAssigned db cid aid an now = ⟨.badRequest capacityMsg, [], db⟩) ∧
    (findAssignment db cid = none → activeAgentCount db aid < 3 →
       (createAssigned db cid aid an now).response =
         .created ⟨aid, cid, an, "Assigned", now⟩ ∧
       (createAssigned db cid aid an now).db.assignments =
         db.assignments ++ [⟨aid, cid, an, "Assigned", now⟩]) := by
  refine ⟨?_, ?_, ?_⟩
  · intro hdup
    unfold createAssigned createAssignedRace
    rw [if_pos hdup]
  · intro hdup hcap
    unfold createAssigned createAssignedRace
    rw [hdup]
    simp only [Option.isSome_none, Bool.false_eq_true, if_false]
    rw [if_pos hcap]
  · intro hdup hcap
    rw [createAssigned_success db cid aid an now hdup hcap]
    exact ⟨rfl, rfl⟩

/-- Witness for C1: on concrete stores, the duplicate case, the capacity
case and the success case each produce the stated outcome. -/
theorem create_assignment_precondition_order_witness :
    createAssigned dbDup 1 8 "G" 0 = ⟨.badRequest dupAssignMsg, [], dbDup⟩ ∧
    createAssigned dbCap 2 7 "G" 0 = ⟨.badRequest capacityMsg, [], dbCap⟩ ∧
    (createAssigned dbFree 2 7 "G" 0).response =
      .created ⟨7, 2, "G", "Assigned", 0⟩ :=
  ⟨(create_assignment_precondition_order dbDup 1 8 "G" 0).1 (by decide),
   (create_assignment_precondition_order dbCap 2 7 "G" 0).2.1 (by decide)
     (by decide),
   ((create_assignment_precondition_order dbFree 2 7 "G" 0).2.2 (by decide)
     (by decide)).1⟩

/-- C2: a successful create-assignment for an existing complaint sets its
status to "Assigned" and emits a complaintUpdated event whose payload is
the full re-read complaint (carrying status "Assigned"), alongside the 201
response with the created assignment. -/
theorem create_assignment_sets_status_and_notifies (db : DB) (cid aid : Nat)
    (an : String) (now : Nat) (c : Complaint)
    (hc : findComplaint db cid = some c)
    (hdup : findAssignment db cid = none)
    (hcap : activeAgentCount db aid < 3) :
    ∃ c', findComplaint (createAssigned db cid aid an now).db cid = some c' ∧
      c'.status = "Assigned" ∧
      (createAssigned db cid aid an now).events = [.complaintUpdated (some c')] ∧
      (createAssigned db cid aid an now).response =
        .created ⟨aid, cid, an, "Assigned", now⟩ := by
  rw [createAssigned_success db cid aid an now hdup hcap]
  refine ⟨{ c with status := "Assigned" }, ?_, rfl, ?_, rfl⟩
  · exact findComplaint_update_self _ cid "Assigned" c hc
  · have : findComplaint
        (updateComplaintStatus
          { db with assignments :=
              db.assignments ++ [⟨aid, cid, an, "Assigned", now⟩] }
          cid "Assigned") cid = some { c with status := "Assigned" } :=
      findComplaint_update_self _ cid "Assigned" c hc
    simp only [this]

/-- Witness for C2: assigning concrete complaint 2 to agent 7 yields the
re-read complaint with status "Assigned" in the event payload. -/
theorem create_assignment_sets_status_and_notifies_witness :
    ∃ c', findComplaint (createAssigned dbFree 2 7 "G" 0).db 2 = some c' ∧
      c'.status = "Assigned" ∧
      (createAssigned dbFree 2 7 "G" 0).events = [.complaintUpdated (some c')] ∧
      (createAssigned dbFree 2 7 "G" 0).response =
        .created ⟨7, 2, "G", "Assigned", 0⟩ :=
  create_assignment_sets_status_and_notifies dbFree 2 7 "G" 0
    (sampleComplaint 2 "Pending") (by decide) (by decide) (by decide)

/-- C3: immediately after any successful sequential create-assignment call,
the assigned agent's count of assignments whose referenced complaint is not
"Resolved" is at most 3. -/
theorem agent_active_count_at_most_three (db : DB) (cid aid : Nat)
    (an : String) (now : Nat) (a : Assigned) (evs : List Event) (db' : DB)
    (h : createAssigned db cid aid an now = ⟨.created a, evs, db'⟩) :
    activeAgentCount db' aid ≤ 3 := by
  obtain ⟨hdup, hcap⟩ :=
    createAssigned_created_inv db cid aid an now a evs db' h
  rw [createAssigned_success db cid aid an now hdup hcap] at h
  have hdb' : db' =
      updateComplaintStatus
        { db with assignments :=
            db.assignments ++ [⟨aid, cid, an, "Assigned", now⟩] }
        cid "Assigned" := by
    cases h
    rfl
  rw [hdb']
  have := activeAgentCount_after_success db cid aid an now hdup
  omega

/-- Witness for C3: after assigning concrete complaint 2 to agent 7, the
agent's active count is within the cap. -/
theorem agent_active_count_at_most_three_witness :
    activeAgentCount
      ⟨[], [sampleComplaint 2 "Assigned"], [sampleAssigned 7 2], [], []⟩ 7 ≤ 3 :=
  agent_active_count_at_most_three dbFree 2 7 "G" 0 (sampleAssigned 7 2)
    [.complaintUpdated (some (sampleComplaint 2 "Assigned"))]
    ⟨[], [sampleComplaint 2 "Assigned"], [sampleAssigned 7 2], [], []⟩
    (by decide)

/-- C4: when the pre-checks pass on the snapshot they read but a conflicting
insert reaches the store before the constrained save, the code-11000
rejection is reported as the duplicate-assignment error (a 400), not as the
generic server error. -/
theorem duplicate_key_race_maps_to_duplicate_error (checkDb writeDb : DB)
    (cid aid : Nat) (an : String) (now : Nat)
    (hdup : findAssignment checkDb cid = none)
    (hcap : activeAgentCount checkDb aid < 3)
    (hconflict : (findAssignment writeDb cid).isSome) :
    createAssignedRace checkDb writeDb cid aid an now =
      ⟨.badRequest dupAssignMsg, [], writeDb⟩ := by
  unfold createAssignedRace
  rw [hdup]
  simp only [Option.isSome_none, Bool.false_eq_true, if_false]
  rw [if_neg (by omega)]
  unfold saveAssigned
  have hany : writeDb.assignments.any (fun b => b.complaintId == cid) = true := by
    rw [List.any_eq_true]
    exact List.find?_isSome.mp hconflict
  rw [if_pos hany]
  rfl

/-- Witness for C4: with a conflicting assignment for complaint 2 already in
the write-time store, the racing call reports the duplicate error. -/
theorem duplicate_key_race_maps_to_duplicate_error_witness :
    createAssignedRace dbFree
      ⟨[], [sampleComplaint 2 "Pending"], [sampleAssigned 8 2], [], []⟩
      2 7 "G" 0 =
      ⟨.badRequest dupAssignMsg, [],
       ⟨[], [sampleComplaint 2 "Pending"], [sampleAssigned 8 2], [], []⟩⟩ :=
  duplicate_key_race_maps_to_duplicate_error dbFree
    ⟨[], [sampleComplaint 2 "Pending"], [sampleAssigned 8 2], [], []⟩
    2 7 "G" 0 (by decide) (by decide) (by decide)

/-- Pointwise form of the mark-read update for a caller with a concrete
display name. -/
theorem markRead_step_eq (cid : Nat) (n : String) (m : Message) :
    (if m.complaintId == cid && senderNe (some n) m.name && m.read == false
     then { m with read := true } else m) =
      (if m.complaintId = cid ∧ m.name ≠ n then { m with read := true }
       else m) := by
  cases m with
  | mk mc mn mm ma mr ms =>
      by_cases h1 : mc = cid <;> by_cases h2 : mn = n <;> cases mr <;>
        simp [senderNe, h1, h2]

/-- The mark-read update step is idempotent on each message. -/
theorem markRead_step_idem (cid : Nat) (u : Option String) (m : Message) :
    (let f := fun m : Message =>
      if m.complaintId == cid && senderNe u m.name && m.read == false
      then { m with read := true } else m
    f (f m) = f m) := by
  cases m with
  | mk mc mn mm ma mr ms =>
      by_cases h1 : mc = cid <;> cases hs : senderNe u mn <;> cases mr <;>
        simp [h1, hs]

/-- C5: marking messages read for complaint C and caller display name N
sets read to true on exactly the messages of C whose sender differs from N,
leaves all other messages untouched, and is idempotent. -/
theorem mark_read_flips_exactly_other_senders (db : DB) (cid : Nat)
    (n : String) :
    (markMessagesRead db cid (some n)).messages =
      db.messages.map (fun m =>
        if m.complaintId = cid ∧ m.name ≠ n then { m with read := true }
        else m) ∧
    markMessagesRead (markMessagesRead db cid (some n)) cid (some n) =
      markMessagesRead db cid (some n) := by
  constructor
  · unfold markMessagesRead
    exact List.map_congr_left (fun m _ => markRead_step_eq cid n m)
  · unfold markMessagesRead
    congr 1
    rw [List.map_map]
    exact List.map_congr_left (fun m _ => markRead_step_idem cid (some n) m)

/-- The count table after one bump: the bumped key reads back one higher
(an absent key reads back as 1). -/
theorem lookupCount_bumpCount_self (counts : List (Nat × Nat)) (cid : Nat) :
    lookupCount (bumpCount counts cid) cid =
      some ((lookupCount counts cid).getD 0 + 1) := by
  induction counts with
  | nil => simp [bumpCount, lookupCount]
  | cons p rest ih =>
      obtain ⟨k, v⟩ := p
      by_cases hk : k = cid
      · simp [bumpCount, lookupCount, hk]
      · simpa [bumpCount, lookupCount, hk] using ih

/-- The count table after one bump: every other key is unchanged. -/
theorem lookupCount_bumpCount_ne (counts : List (Nat × Nat)) (c1 c2 : Nat)
    (h : c1 ≠ c2) :
    lookupCount (bumpCount counts c1) c2 = lookupCount counts c2 := by
  induction counts with
  | nil => simp [bumpCount, lookupCount, h]
  | cons p rest ih =>
      obtain ⟨k, v⟩ := p
      by_cases hk : k = c1
      · have hk2 : ¬((fun q : Nat × Nat => q.1 == c2) (k, v + 1) = true) := by
          simp [hk, h]
        have hk2' : ¬((fun q : Nat × Nat => q.1 == c2) (k, v) = true) := by
          simp [hk, h]
        have hbump : bumpCount ((k, v) :: rest) c1 = (k, v + 1) :: rest := by
          simp [bumpCount, hk]
        rw [hbump]
        unfold lookupCount
        rw [@List.find?_cons_of_neg _ (fun q => q.1 == c2) (k, v + 1) rest hk2,
            @List.find?_cons_of_neg _ (fun q => q.1 == c2) (k, v) rest hk2']
      · have hbump : bumpCount ((k, v) :: rest) c1 = (k, v) :: bumpCount rest c1 := by
          simp [bumpCount, hk]
        rw [hbump]
        by_cases hk2 : k = c2
        · have hpos : ((fun q : Nat × Nat => q.1 == c2) (k, v)) = true := by
            simp [hk2]
          unfold lookupCount
          rw [@List.find?_cons_of_pos _ (fun q => q.1 == c2) (k, v)
                (bumpCount rest c1) hpos,
              @List.find?_cons_of_pos _ (fun q => q.1 == c2) (k, v) rest hpos]
        · have hneg : ¬((fun q : Nat × Nat => q.1 == c2) (k, v) = true) := by
            simp [hk2]
          unfold lookupCount at ih ⊢
          rw [@List.find?_cons_of_neg _ (fun q => q.1 == c2) (k, v)
                (bumpCount rest c1) hneg,
              @List.find?_cons_of_neg _ (fun q => q.1 == c2) (k, v) rest hneg]
          exact ih

/-- Folding the grouping step over a message list adds, at each key, the
number of messages carrying that complaint id; a key absent from the
accumulator appears exactly when that number is positive. -/
theorem lookupCount_foldl_bump (ms : List Message) (acc : List (Nat × Nat))
    (cid : Nat) :
    lookupCount (List.foldl (fun acc m => bumpCount acc m.complaintId) acc ms)
        cid =
      (match lookupCount acc cid with
       | some v => some (v + (ms.filter (fun m => m.complaintId == cid)).length)
       | none =>
           if (ms.filter (fun m => m.complaintId == cid)).length = 0 then none
           else some ((ms.filter (fun m => m.complaintId == cid)).length)) := by
  induction ms generalizing acc with
  | nil => cases h : lookupCount acc cid <;> simp [h]
  | cons m rest ih =>
      rw [List.foldl_cons, ih]
      by_cases hm : m.complaintId = cid
      · rw [hm, lookupCount_bumpCount_self]
        cases h : lookupCount acc cid with
        | none =>
            simp only [h, Option.getD_none]
            have hfil : (List.filter (fun m => m.complaintId == cid) (m :: rest)).length =
                (List.filter (fun m => m.complaintId == cid) rest).length + 1 := by
              simp [List.filter_cons, hm]
            rw [hfil]
            have h1 : ¬((List.filter (fun m => m.complaintId == cid) rest).length + 1 = 0) := by
              omega
            simp only [if_neg h1]
            congr 1
            omega
        | some v =>
            simp only [h, Option.getD_some]
            have hfil : (List.filter (fun m => m.complaintId == cid) (m :: rest)).length =
                (List.filter (fun m => m.complaintId == cid) rest).length + 1 := by
              simp [List.filter_cons, hm]
            rw [hfil]
            congr 1
            omega
      · rw [lookupCount_bumpCount_ne _ _ _ hm]
        have hfil : List.filter (fun m => m.complaintId == cid) (m :: rest) =
            List.filter (fun m => m.complaintId == cid) rest := by
          simp [List.filter_cons, hm]
        rw [hfil]

/-- C6: for caller display name N, the unread-counts mapping holds, at each
complaint id C, the number of messages of the whole store with complaint id
C, read still false and sender different from N; complaint ids with no such
message are absent from the mapping. -/
theorem unread_counts_global_aggregation (db : DB) (n : String) (cid : Nat) :
    lookupCount (unreadCounts db (some n)) cid =
      (if (db.messages.filter (fun m =>
            m.complaintId == cid && m.name != n && m.read == false)).length = 0
       then none
       else some ((db.messages.filter (fun m =>
            m.complaintId == cid && m.name != n && m.read == false)).length)) := by
  unfold unreadCounts groupByComplaintId unreadMatches
  rw [lookupCount_foldl_bump]
  have hnone : lookupCount [] cid = none := rfl
  rw [hnone]
  rw [List.filter_filter]
  have hcong : List.filter
      (fun m => m.complaintId == cid && (senderNe (some n) m.name && m.read == false))
      db.messages =
      List.filter (fun m => m.complaintId == cid && m.name != n && m.read == false)
        db.messages := by
    apply List.filter_congr
    intro m _
    cases hc : m.complaintId == cid <;> cases hn : m.name != n <;>
      cases hr : m.read <;> simp [senderNe, hc, hn, hr]
  rw [hcong]

/-- The rational 5/2, i.e. the JS number 2.5, a value the rating validators
accept although it is not an integer. -/
def twoAndAHalf : Rat := ⟨5, 2, by decide, by decide⟩

/-- C7 counterexample: the claim that any rating outside the integer range
[1,5] is rejected fails at rating 2.5: the feedback is stored (201, store
grown) although 2.5 is not an integer. -/
theorem feedback_rating_noninteger_is_stored :
    (createFeedback DB.empty 1 1 twoAndAHalf none 0).1 =
      .created ⟨1, 1, none, twoAndAHalf, none, 0⟩ ∧
    (createFeedback DB.empty 1 1 twoAndAHalf none 0).2.feedbacks =
      [⟨1, 1, none, twoAndAHalf, none, 0⟩] ∧
    ¬ ∃ z : ℤ, twoAndAHalf = (z : Rat) := by
  refine ⟨by decide, by decide, ?_⟩
  rintro ⟨z, hz⟩
  have hden := congrArg Rat.den hz
  rw [Rat.den_intCast] at hden
  exact absurd hden (by decide)

/-- C7 (amended): a rating below 1 or above 5 (for example 6) is rejected
with an error and the stored-feedback set is unchanged; a rating within
[1,5] is stored as given; every feedback present after the call was either
already stored or has rating within [1,5]. Integrality inside the range is
not enforced. -/
theorem feedback_rating_range_enforced (db : DB) (uid cid : Nat)
    (rating : Rat) (comment : Option String) (now : Nat) :
    (rating < 1 ∨ 5 < rating →
       (createFeedback db uid cid rating comment now).1 =
         .serverError "Feedback validation failed: rating" ∧
       (createFeedback db uid cid rating comment now).2 = db) ∧
    (1 ≤ rating → rating ≤ 5 →
       (createFeedback db uid cid rating comment now).2.feedbacks =
         db.feedbacks ++
           [⟨uid, cid, (findAssignment db cid).map (fun a => a.agentId),
             rating, comment, now⟩]) ∧
    (∀ f ∈ (createFeedback db uid cid rating comment now).2.feedbacks,
       f ∈ db.feedbacks ∨ (1 ≤ f.rating ∧ f.rating ≤ 5)) := by
  by_cases h : rating < 1 ∨ 5 < rating
  · have heq : createFeedback db uid cid rating comment now =
        (.serverError "Feedback validation failed: rating", db) := by
      simp [createFeedback, saveFeedback, h]
    refine ⟨fun _ => ?_, fun h1 h2 => ?_, fun f hf => ?_⟩
    · rw [heq]
      exact ⟨rfl, rfl⟩
    · rcases h with h | h
      · exact absurd h1 (not_le.mpr h)
      · exact absurd h2 (not_le.mpr h)
    · rw [heq] at hf
      exact Or.inl hf
  · have hin : 1 ≤ rating ∧ rating ≤ 5 := by
      push_neg at h
      exact h
    have heq : createFeedback db uid cid rating comment now =
        (.created ⟨uid, cid, (findAssignment db cid).map (fun a => a.agentId),
           rating, comment, now⟩,
         { db with feedbacks := db.feedbacks ++
             [⟨uid, cid, (findAssignment db cid).map (fun a => a.agentId),
               rating, comment, now⟩] }) := by
      simp [createFeedback, saveFeedback, h]
    refine ⟨fun hbad => absurd hbad h, fun _ _ => ?_, fun f hf => ?_⟩
    · rw [heq]
    · rw [heq] at hf
      rcases List.mem_append.mp hf with hmem | hmem
      · exact Or.inl hmem
      · have hfe : f = ⟨uid, cid,
            (findAssignment db cid).map (fun a => a.agentId),
            rating, comment, now⟩ := by simpa using hmem
        rw [hfe]
        exact Or.inr hin

/-- Witness for C7 (amended): rating 6 is rejected leaving the store
unchanged, and rating 5 is stored. -/
theorem feedback_rating_range_enforced_witness :
    ((createFeedback DB.empty 1 1 6 none 0).1 =
       .serverError "Feedback validation failed: rating" ∧
     (createFeedback DB.empty 1 1 6 none 0).2 = DB.empty) ∧
    (createFeedback DB.empty 1 1 5 none 0).2.feedbacks =
      [⟨1, 1, none, 5, none, 0⟩] :=
  ⟨(feedback_rating_range_enforced DB.empty 1 1 6 none 0).1
     (Or.inr (by decide)),
   (feedback_rating_range_enforced DB.empty 1 1 5 none 0).2.1
     (by decide) (by decide)⟩

/-- C8: register- and login-issued token payloads carry only the user id
and userType, never the display name; consequently the caller name the
message routes read off the verified token is undefined, and the
sender-differs-from-caller filter passes every message regardless of its
sender, never comparing against the user's actual display name. -/
theorem token_payload_never_carries_name (u : User) (db : DB) (cid : Nat) :
    payloadField (registerToken u) "name" = none ∧
    payloadField (loginToken u) "name" = none ∧
    reqUserName (registerToken u) = none ∧
    reqUserName (loginToken u) = none ∧
    markReadRoute db cid (registerToken u) = markMessagesRead db cid none ∧
    (markMessagesRead db cid none).messages =
      db.messages.map (fun m =>
        if m.complaintId = cid ∧ m.read = false then { m with read := true }
        else m) ∧
    unreadCountsRoute db (registerToken u) = unreadCounts db none := by
  refine ⟨rfl, rfl, rfl, rfl, rfl, ?_, rfl⟩
  unfold markMessagesRead
  apply List.map_congr_left
  intro m _
  cases m with
  | mk mc mn mm ma mr ms =>
      by_cases h1 : mc = cid <;> cases mr <;> simp [senderNe, h1]

/-- C9 counterexample: with agent 7 already holding three active
assignments, a create-assignment for the missing complaint 99 (no complaint
record, no assignment) is rejected by the capacity check rather than
succeeding, refuting the unconditional success claim. -/
theorem assign_missing_complaint_can_hit_capacity :
    findComplaint dbCap 99 = none ∧
    findAssignment dbCap 99 = none ∧
    createAssigned dbCap 99 7 "G" 0 = ⟨.badRequest capacityMsg, [], dbCap⟩ := by
  refine ⟨by decide, by decide, by decide⟩

/-- C9 (amended): create-assignment never checks that the referenced
complaint exists: for a complaint id with no Complaint record, no existing
assignment, and an assignee agent below the capacity limit, the call
succeeds, persists the assignment, leaves the complaint store unchanged
(the status update is a no-op) and emits a complaintUpdated event with a
null payload. -/
theorem assign_missing_complaint_succeeds (db : DB) (cid aid : Nat)
    (an : String) (now : Nat)
    (hmiss : findComplaint db cid = none)
    (hdup : findAssignment db cid = none)
    (hcap : activeAgentCount db aid < 3) :
    (createAssigned db cid aid an now).response =
      .created ⟨aid, cid, an, "Assigned", now⟩ ∧
    (createAssigned db cid aid an now).db.assignments =
      db.assignments ++ [⟨aid, cid, an, "Assigned", now⟩] ∧
    (createAssigned db cid aid an now).db.complaints = db.complaints ∧
    (createAssigned db cid aid an now).events = [.complaintUpdated none] := by
  rw [createAssigned_success db cid aid an now hdup hcap]
  have hmiss1 : findComplaint
      { db with assignments := db.assignments ++ [⟨aid, cid, an, "Assigned", now⟩] }
      cid = none := hmiss
  rw [updateComplaintStatus_missing _ cid "Assigned" hmiss1]
  exact ⟨rfl, rfl, rfl, by rw [hmiss1]⟩

/-- Witness for C9 (amended): assigning the missing complaint 99 on the
empty store succeeds with a null notification payload. -/
theorem assign_missing_complaint_succeeds_witness :
    (createAssigned DB.empty 99 7 "G" 0).response =
      .created ⟨7, 99, "G", "Assigned", 0⟩ ∧
    (createAssigned DB.empty 99 7 "G" 0).events = [.complaintUpdated none] :=
  ⟨(assign_missing_complaint_succeeds DB.empty 99 7 "G" 0 (by decide)
      (by decide) (by decide)).1,
   (assign_missing_complaint_succeeds DB.empty 99 7 "G" 0 (by decide)
      (by decide) (by decide)).2.2.2⟩

/-- C10: an assignment whose referenced complaint no longer exists never
contributes to the active count used by the capacity check and by the
agent listing: appending an orphaned assignment leaves the count unchanged,
an agent all of whose assignments are orphaned has count 0 (also in the
agent listing), and such an agent can still receive a new assignment. -/
theorem orphaned_assignments_never_count (db : DB) (cid aid : Nat)
    (an : String) (now : Nat) (a : Assigned) :
    (findComplaint db a.complaintId = none →
       activeAgentCount { db with assignments := db.assignments ++ [a] } aid =
         activeAgentCount db aid) ∧
    ((∀ b ∈ db.assignments, b.agentId = aid →
        findComplaint db b.complaintId = none) →
       activeAgentCount db aid = 0 ∧
       (∀ p ∈ listAgents db, p.1.id = aid → p.2 = 0) ∧
       (findAssignment db cid = none →
          (createAssigned db cid aid an now).response =
            .created ⟨aid, cid, an, "Assigned", now⟩)) := by
  constructor
  · intro hmiss
    unfold activeAgentCount agentAssignments
    have hassign : ({ db with assignments := db.assignments ++ [a] } : DB).assignments =
        db.assignments ++ [a] := rfl
    rw [hassign, List.filter_append, List.filter_append, List.length_append]
    have hsame : ∀ b : Assigned,
        isActive { db with assignments := db.assignments ++ [a] } b =
          isActive db b := fun b => rfl
    have hcong2 : List.filter
        (fun b => isActive { db with assignments := db.assignments ++ [a] } b)
        (List.filter (fun b => b.agentId == aid) [a]) =
        List.filter (fun b => isActive db b)
          (List.filter (fun b => b.agentId == aid) [a]) :=
      List.filter_congr (fun b _ => hsame b)
    have hzero : (List.filter
        (fun b => isActive { db with assignments := db.assignments ++ [a] } b)
        (List.filter (fun b => b.agentId == aid) [a])).length = 0 := by
      rw [hcong2]
      by_cases ha : a.agentId = aid
      · simp [List.filter_cons, ha, isActive, hmiss]
      · simp [List.filter_cons, ha]
    rw [hzero]
    have hcong : List.filter
        (fun b => isActive { db with assignments := db.assignments ++ [a] } b)
        (List.filter (fun b => b.agentId == aid) db.assignments) =
        List.filter (fun b => isActive db b)
          (List.filter (fun b => b.agentId == aid) db.assignments) :=
      List.filter_congr (fun b _ => hsame b)
    rw [hcong]
    omega
  · intro horph
    have hzero : activeAgentCount db aid = 0 := by
      unfold activeAgentCount
      have : List.filter (fun b => isActive db b) (agentAssignments db aid) = [] := by
        rw [List.filter_eq_nil_iff]
        intro b hb
        have hbmem : b ∈ db.assignments := List.mem_of_mem_filter hb
        have hbag : b.agentId = aid := by
          have := List.of_mem_filter hb
          simpa using this
        have := horph b hbmem hbag
        simp [isActive, this]
      rw [this]
      rfl
    refine ⟨hzero, ?_, ?_⟩
    · intro p hp haid
      unfold listAgents at hp
      obtain ⟨u, hu, hup⟩ := List.mem_map.mp hp
      have h2 : p.2 = activeAgentCount db u.id := by rw [← hup]
      have h1 : p.1 = u := by rw [← hup]
      have huid : u.id = aid := by
        rw [← h1]
        exact haid
      rw [h2, huid, hzero]
    · intro hdup
      rw [createAssigned_success db cid aid an now hdup (by omega)]

/-- A store holding three assignments of agent 7 whose complaints have all
been deleted. -/
def dbOrphans : DB :=
  ⟨[], [], [sampleAssigned 7 10, sampleAssigned 7 11, sampleAssigned 7 12],
   [], []⟩

/-- Witness for C10: with three orphaned assignments, appending a fourth
orphan keeps the count, the count is 0, and a new assignment for agent 7
still succeeds. -/
theorem orphaned_assignments_never_count_witness :
    activeAgentCount
        { dbOrphans with assignments := dbOrphans.assignments ++ [sampleAssigned 7 50] }
        7 = activeAgentCount dbOrphans 7 ∧
    activeAgentCount dbOrphans 7 = 0 ∧
    (createAssigned dbOrphans 2 7 "G" 0).response =
      .created ⟨7, 2, "G", "Assigned", 0⟩ :=
  ⟨(orphaned_assignments_never_count dbOrphans 2 7 "G" 0
      (sampleAssigned 7 50)).1 (by decide),
   ((orphaned_assignments_never_count dbOrphans 2 7 "G" 0
      (sampleAssigned 7 50)).2 (by decide)).1,
   ((orphaned_assignments_never_count dbOrphans 2 7 "G" 0
      (sampleAssigned 7 50)).2 (by decide)).2.2 (by decide)⟩

end ResolveNow
